import Mathlib

/-!
Shallow embedding of the booking-platform backend
(`app/features/{stays,cars,providers,admin}` services and routes, and the
role-check dependency in `app/core/security/permissions.py`).

Python floats on the money/rating paths are modelled as exact rationals
(`ℚ`); Python `round(x, n)` is modelled as exact round-half-to-even at
`n` decimal digits. Dates are modelled by their ordinal day number (`ℤ`),
so `(check_out - check_in).days` becomes plain integer subtraction.
Fallible service functions (`raise HTTPException`) return `Except`.
-/

namespace Booking

/-- Mirror of FastAPI's `HTTPException(status_code, detail)`. -/
structure HTTPException where
  status_code : Nat
  detail : String
deriving DecidableEq, Repr

/-- Model of `ProviderStatus` from `app/features/providers/models.py`. -/
inductive ProviderStatus
  | pending
  | approved
  | rejected
deriving DecidableEq, Repr

/-- Model of `UserRole` from `app/features/users/models.py` (a `str` enum). -/
inductive UserRole
  | customer
  | provider
  | admin
deriving DecidableEq, Repr

/-- The string value carried by each `UserRole` member (it is a `str`
enum, so `user.role != "x"` in Python compares this string to `"x"`). -/
def UserRole.value : UserRole → String
  | .customer => "customer"
  | .provider => "provider"
  | .admin => "admin"

/-- Model of `User` from `app/features/users/models.py`, restricted to the fields
the verified operations read. -/
structure User where
  id : Nat
  email : String
  role : UserRole
deriving DecidableEq, Repr

/-- Model of `Provider` from `app/features/providers/models.py`, restricted to the
fields the verified operations read. -/
structure Provider where
  id : Nat
  user_id : Nat
  status : ProviderStatus
deriving DecidableEq, Repr

/-- Model of `Stay` from `app/features/stays/models.py` together with its child
rows: `amenity_ids` are the `StayAmenity` links and `reviews` the ratings
of its `Review` children (`created_at`, `description`, `address_line`,
`street` and image rows are dropped: no verified operation reads them). -/
structure Stay where
  id : Nat
  provider_id : Nat
  property_type_id : Nat
  name : String
  city : String
  country : String
  price_per_night : ℚ
  service_fee : ℚ
  tax_percent : ℚ
  rooms : Nat
  max_adults : Nat
  max_children : Nat
  is_featured : Bool
  rating_avg : ℚ
  review_count : Nat
  amenity_ids : List Nat
  reviews : List Nat
deriving DecidableEq, Repr

/-- Model of `StayCreate` from `app/features/stays/schemas.py` (payload fields). -/
structure StayCreate where
  name : String
  city : String
  country : String
  price_per_night : ℚ
  service_fee : ℚ
  tax_percent : ℚ
  rooms : Nat
  max_adults : Nat
  max_children : Nat
  property_type_id : Nat
  amenity_ids : List Nat
deriving DecidableEq, Repr

/-- Model of `Car` from `app/features/cars/models.py`, restricted to the fields the
verified operations read; `reviews` holds the ratings of its `CarReview`
children. -/
structure Car where
  id : Nat
  provider_id : Nat
  car_type_id : Nat
  city : String
  country : String
  price_per_day : ℚ
  seats : Nat
  transmission : String
  fuel_type : String
  is_featured : Bool
  rating_avg : ℚ
  review_count : Nat
  reviews : List Nat
deriving DecidableEq, Repr

/-- Model of `CarCreate` from `app/features/cars/schemas.py` (payload fields the
model keeps). -/
structure CarCreate where
  car_type_id : Nat
  city : String
  country : String
  price_per_day : ℚ
  seats : Nat
  transmission : String
  fuel_type : String
  feature_ids : List Nat
deriving DecidableEq, Repr

/-- The row built by `Stay(provider_id=..., **stay_in.dict(...))` plus the
`StayAmenity` links added by `create_stay`; a fresh id is supplied by the
store. -/
def StayCreate.toStay (stay_in : StayCreate) (fresh_id provider_id : Nat) : Stay :=
  { id := fresh_id
    provider_id := provider_id
    property_type_id := stay_in.property_type_id
    name := stay_in.name
    city := stay_in.city
    country := stay_in.country
    price_per_night := stay_in.price_per_night
    service_fee := stay_in.service_fee
    tax_percent := stay_in.tax_percent
    rooms := stay_in.rooms
    max_adults := stay_in.max_adults
    max_children := stay_in.max_children
    is_featured := false
    rating_avg := 0
    review_count := 0
    amenity_ids := stay_in.amenity_ids
    reviews := [] }

/-- Model of `create_stay` (`app/features/stays/services.py` lines 34-55): rejects
with `403 "Provider not approved"` unless `provider.status == approved`,
otherwise inserts the new `Stay` row and its amenity links. -/
def create_stay (stay_in : StayCreate) (provider : Provider) (stays : List Stay) :
    Except HTTPException (List Stay) :=
  if provider.status ≠ ProviderStatus.approved then
    .error ⟨403, "Provider not approved"⟩
  else
    .ok (stays ++ [stay_in.toStay stays.length provider.id])

/-- The row built by `Car(provider_id=..., **car_in.dict(...))` in
`create_car`. -/
def CarCreate.toCar (car_in : CarCreate) (fresh_id provider_id : Nat) : Car :=
  { id := fresh_id
    provider_id := provider_id
    car_type_id := car_in.car_type_id
    city := car_in.city
    country := car_in.country
    price_per_day := car_in.price_per_day
    seats := car_in.seats
    transmission := car_in.transmission
    fuel_type := car_in.fuel_type
    is_featured := false
    rating_avg := 0
    review_count := 0
    reviews := [] }

/-- Model of `create_car` (`app/features/cars/services.py` lines 90-107): inserts
the new `Car` row and its feature links. The source performs no provider
status check on this path, so the operation is total. -/
def create_car (car_in : CarCreate) (provider_id : Nat) (cars : List Car) : List Car :=
  cars ++ [car_in.toCar cars.length provider_id]

/-- The dependency returned by `require_role(required_role)`
(`app/core/security/permissions.py` lines 37-43): `403 "Forbidden"` when
`user.role != required_role` (a `str`-enum/string comparison), otherwise
the user itself. -/
def require_role_check (required_role : String) (user : User) :
    Except HTTPException User :=
  if user.role.value ≠ required_role then .error ⟨403, "Forbidden"⟩
  else .ok user

/-- Model of `get_provider_by_user` (`app/features/providers/services.py`): first
provider row whose `user_id` matches, else `404`. -/
def get_provider_by_user (user : User) (providers : List Provider) :
    Except HTTPException Provider :=
  match providers.find? (fun p => p.user_id == user.id) with
  | none => .error ⟨404, "Provider profile not found"⟩
  | some p => .ok p

/-- Model of `review_provider` (`app/features/admin/services.py` lines 47-70):
admin-only; looks the provider up by id and unconditionally overwrites its
status with `approved`/`rejected` according to the `approve` flag. -/
def review_provider (provider_id : Nat) (approve : Bool)
    (providers : List Provider) (current_user : User) :
    Except HTTPException (List Provider × Provider) :=
  if current_user.role ≠ UserRole.admin then
    .error ⟨403, "Not authorized to review providers"⟩
  else
    match providers.find? (fun p => p.id == provider_id) with
    | none => .error ⟨404, "Provider not found"⟩
    | some p =>
        let p' : Provider :=
          { p with status := if approve then .approved else .rejected }
        .ok (providers.map (fun q => if q.id == provider_id then p' else q), p')

/-- The `POST /providers/cars/` route body (`app/features/cars/routes.py`
lines 108-115): role gate, provider lookup, then `create_car` — with no
check of the provider's approval status anywhere on the path. -/
def create_car_route (user : User) (car_in : CarCreate)
    (providers : List Provider) (cars : List Car) :
    Except HTTPException (List Car) := do
  let u ← require_role_check ("customer") user
  let p ← get_provider_by_user u providers
  .ok (create_car car_in p.id cars)

/-! ## Search: filtering, sorting, pagination -/

/-- Model of `column.ilike(f"%{pat}%")`: case-insensitive substring containment
(wildcard metacharacters inside the user string are not modelled). -/
def ilike_contains (hay pat : String) : Bool :=
  decide (pat.toLower.toList <:+: hay.toLower.toList)

/-- The optional query parameters of `search_stays`
(`app/features/stays/services.py` lines 334-349). `amenities` is accepted
by the function exactly as in the source. -/
structure SearchFilters where
  city : Option String
  country : Option String
  price_min : Option ℚ
  price_max : Option ℚ
  min_rating : Option ℚ
  adults : Option Nat
  children : Option Nat
  rooms : Option Nat
  amenities : Option (List Nat)
deriving DecidableEq, Repr

/-- No query parameter supplied (all defaults `None`). -/
def SearchFilters.none : SearchFilters :=
  ⟨Option.none, Option.none, Option.none, Option.none, Option.none,
   Option.none, Option.none, Option.none, Option.none⟩

/-- Conjunction of the `where` clauses `search_stays` actually adds
(`app/features/stays/services.py` lines 357-372). String filters are
guarded by Python truthiness (`if city:`), so `None` and `""` impose no
constraint; numeric filters are guarded by `is not None`. The `amenities`
parameter is never used by the source, so it contributes no conjunct. -/
def matchesFilters (f : SearchFilters) (s : Stay) : Bool :=
  (match f.city with
   | .none => true
   | .some c => if c = "" then true else ilike_contains s.city c) &&
  (match f.country with
   | .none => true
   | .some c => if c = "" then true else ilike_contains s.country c) &&
  (match f.price_min with
   | .none => true
   | .some m => decide (m ≤ s.price_per_night)) &&
  (match f.price_max with
   | .none => true
   | .some m => decide (s.price_per_night ≤ m)) &&
  (match f.min_rating with
   | .none => true
   | .some m => decide (m ≤ s.rating_avg)) &&
  (match f.rooms with
   | .none => true
   | .some r => decide (r ≤ s.rooms)) &&
  (match f.adults with
   | .none => true
   | .some a => decide (a ≤ s.max_adults)) &&
  (match f.children with
   | .none => true
   | .some c => decide (c ≤ s.max_children))

/-- The filter stage of `search_stays`: the store returns exactly the rows
satisfying the conjoined `where` clauses, in natural (insertion) order. -/
def filterStays (f : SearchFilters) (stays : List Stay) : List Stay :=
  stays.filter (matchesFilters f)

/-- The amenity-set filter as the spec describes it (4.1: "amenity/feature
set" among the filters that are ANDed): the listing must carry every
requested amenity. Stated from the spec's words, for comparison with the
source's `matchesFilters`, which ignores the parameter. -/
def spec_amenities_ok (req : Option (List Nat)) (s : Stay) : Bool :=
  match req with
  | .none => true
  | .some ids => ids.all (fun a => s.amenity_ids.contains a)

/-- Sort-key order `key a ≤ key b` (Python `list.sort(key=...)`). -/
def keyRelAsc (key : Stay → ℚ) : Stay → Stay → Prop :=
  fun a b => key a ≤ key b

/-- Sort-key order reversed, `key b ≤ key a` (Python
`list.sort(key=..., reverse=True)`; `reverse=True` reverses comparisons
but keeps the sort stable). -/
def keyRelDesc (key : Stay → ℚ) : Stay → Stay → Prop :=
  fun a b => key b ≤ key a

instance (key : Stay → ℚ) : DecidableRel (keyRelAsc key) :=
  fun a b => inferInstanceAs (Decidable (key a ≤ key b))

instance (key : Stay → ℚ) : DecidableRel (keyRelDesc key) :=
  fun a b => inferInstanceAs (Decidable (key b ≤ key a))

instance (key : Stay → ℚ) : IsTotal Stay (keyRelAsc key) :=
  ⟨fun a b => le_total (key a) (key b)⟩

instance (key : Stay → ℚ) : IsTrans Stay (keyRelAsc key) :=
  ⟨fun _ _ _ h h' => le_trans h h'⟩

instance (key : Stay → ℚ) : IsTotal Stay (keyRelDesc key) :=
  ⟨fun a b => le_total (key b) (key a)⟩

instance (key : Stay → ℚ) : IsTrans Stay (keyRelDesc key) :=
  ⟨fun _ _ _ h h' => le_trans h' h⟩

/-- The sort stage of `search_stays`
(`app/features/stays/services.py` lines 377-387). Python's `list.sort` is
stable, and a stable sort's output is determined by the key order and the
input order, so stable insertion sort embeds it exactly. The final `elif`
replaces the list by its `is_featured` sublist; when no branch matches
(the `sort_by` string is unrecognized) the list is left untouched. -/
def sortStays (sort_by : String) (stays : List Stay) : List Stay :=
  if sort_by = "price_asc" then
    List.insertionSort (keyRelAsc (·.price_per_night)) stays
  else if sort_by = "price_desc" then
    List.insertionSort (keyRelDesc (·.price_per_night)) stays
  else if sort_by = "rating_desc" then
    List.insertionSort (keyRelDesc (·.rating_avg)) stays
  else if sort_by = "popularity" then
    List.insertionSort (keyRelDesc (fun s => (s.review_count : ℚ))) stays
  else if sort_by = "featured" then
    stays.filter (·.is_featured)
  else
    stays

/-- Python slice `l[start:stop]` with (possibly negative) integer bounds:
a negative index counts from the end, clamped to `[0, len]`. -/
def pySlice {α : Type} (l : List α) (start stop : Int) : List α :=
  let n : Int := l.length
  let s : Int := if start < 0 then max 0 (n + start) else min start n
  let e : Int := if stop < 0 then max 0 (n + stop) else min stop n
  (l.drop s.toNat).take (e - s).toNat

/-- The pagination stage of `search_stays`
(`app/features/stays/services.py` lines 389-392):
`stays[(page-1)*page_size : (page-1)*page_size + page_size]`. -/
def paginate {α : Type} (page page_size : Int) (l : List α) : List α :=
  pySlice l ((page - 1) * page_size) ((page - 1) * page_size + page_size)

/-- The full filter → sort → paginate pipeline of `search_stays`
(`app/features/stays/services.py` lines 334-392). The final mapping to
`StayRead` copies every field read by the verified claims unchanged, so
the pipeline is stated on the rows themselves. -/
def search_stays (f : SearchFilters) (sort_by : String)
    (page page_size : Int) (stays : List Stay) : List Stay :=
  paginate page page_size (sortStays sort_by (filterStays f stays))

/-! ## Price breakdown -/

/-- Round to the nearest integer, ties to even — the semantics of
Python's built-in `round` on exact values. -/
def roundHalfEven (q : ℚ) : ℤ :=
  let f : ℤ := ⌊q⌋
  let frac : ℚ := q - f
  if frac < 1 / 2 then f
  else if 1 / 2 < frac then f + 1
  else if f % 2 = 0 then f else f + 1

/-- Python `round(q, 2)`. -/
def round2 (q : ℚ) : ℚ := (roundHalfEven (q * 100) : ℚ) / 100

/-- Python `round(q, 1)`. -/
def round1 (q : ℚ) : ℚ := (roundHalfEven (q * 10) : ℚ) / 10

/-- The dict returned by `calculate_price_breakdown`. -/
structure PriceBreakdownOut where
  subtotal : ℚ
  service_fee : ℚ
  taxes : ℚ
  total : ℚ
deriving DecidableEq, Repr

/-- Model of `calculate_price_breakdown` (`app/features/stays/services.py` lines
436-453). `check_in`/`check_out` are ordinal day numbers, so
`(check_out - check_in).days` is their difference; `rooms` is a Python
`int`. Raises `400 "Invalid date range"` when `nights <= 0`; otherwise
computes subtotal/fee/taxes/total on unrounded values and rounds each of
the four outputs to 2 decimal places. -/
def calculate_price_breakdown (stay : Stay) (check_in check_out : Int)
    (rooms : Int) : Except HTTPException PriceBreakdownOut :=
  let nights : Int := check_out - check_in
  if nights ≤ 0 then .error ⟨400, "Invalid date range"⟩
  else
    let subtotal : ℚ := stay.price_per_night * nights * rooms
    let service_fee : ℚ := stay.service_fee
    let taxes : ℚ := subtotal * (stay.tax_percent / 100)
    let total : ℚ := subtotal + service_fee + taxes
    .ok { subtotal := round2 subtotal
          service_fee := round2 service_fee
          taxes := round2 taxes
          total := round2 total }

/-! ## Review aggregation -/

/-- Arithmetic mean of a list of ratings, `0` when empty (matching
`avg_rating or 0.0` on the stays path and the `rating_avg=0, count=0`
initial state on the cars path). -/
def meanRatings (rs : List Nat) : ℚ :=
  if rs = [] then 0 else ((rs.sum : ℚ)) / (rs.length : ℚ)

/-- Model of `add_review` for stays (`app/features/stays/services.py` lines
245-273), restricted to the listing it updates: insert the `Review` row,
then recompute `AVG(rating)`/`COUNT(id)` over all reviews of the stay and
store `rating_avg = round(avg, 1)`, `review_count = count`. -/
def add_review (stay : Stay) (rating : Nat) : Stay :=
  let reviews := stay.reviews ++ [rating]
  { stay with
      reviews := reviews
      rating_avg := round1 (meanRatings reviews)
      review_count := reviews.length }

/-- Model of `add_car_review` (`app/features/cars/services.py` lines 246-256),
restricted to the aggregate update on the found car: increment
`review_count`, then set
`rating_avg = (rating_avg * (review_count - 1) + rating) / review_count`
with the already-incremented count. -/
def add_car_review (car : Car) (rating : Nat) : Car :=
  let review_count := car.review_count + 1
  let rating_avg : ℚ :=
    (car.rating_avg * ((review_count : ℚ) - 1) + (rating : ℚ)) / (review_count : ℚ)
  { car with
      reviews := car.reviews ++ [rating]
      review_count := review_count
      rating_avg := rating_avg }

/-- Fold a sequence of stay review insertions. -/
def applyReviews (stay : Stay) (ratings : List Nat) : Stay :=
  ratings.foldl add_review stay

/-- Fold a sequence of car review insertions. -/
def applyCarReviews (car : Car) (ratings : List Nat) : Car :=
  ratings.foldl add_car_review car

/-- The `POST /cars/{car_id}/reviews` route body
(`app/features/cars/routes.py` lines 77-89), up to its role gate: the
dependency `require_role("user")` runs before the service call, so the
outcome of the gate decides whether any review is ever created. -/
def add_car_review_route (user : User) (car : Car) (rating : Nat) :
    Except HTTPException Car := do
  let _ ← require_role_check ("user") user
  .ok (add_car_review car rating)

/-! ## Keyword-argument compatibility of the stays search route -/

/-- A Python call with keyword arguments raises `TypeError` ("got an
unexpected keyword argument") exactly when some passed keyword is not
among the callee's declared parameter names. -/
def callRaisesTypeError (declared_params passed_kwargs : List String) : Bool :=
  passed_kwargs.any (fun k => !declared_params.contains k)

/-- The parameter names declared by the service function `search_stays`
(`app/features/stays/services.py` lines 334-349). -/
def search_stays_service_params : List String :=
  ["session", "city", "country", "price_min", "price_max", "min_rating",
   "adults", "children", "rooms", "amenities", "sort_by", "page",
   "page_size", "check_in", "check_out"]

/-- The keyword arguments the `GET /stays/` handler passes to
`services.search_stays` (`app/features/stays/routes.py` lines 46-63). -/
def search_stays_route_kwargs : List String :=
  ["session", "city", "country", "price_min", "price_max", "min_rating",
   "adults", "children", "rooms", "amenities", "property_type_id",
   "sort_by", "page", "page_size", "check_in", "check_out"]

/-! ## Concrete fixtures used by witnesses and counterexamples -/

/-- Fixture stay: `price_per_night=100, service_fee=15, tax_percent=10`,
no reviews yet. -/
def stay100 : Stay :=
  { id := 1
    provider_id := 1
    property_type_id := 1
    name := "Palm Suites"
    city := "Riyadh"
    country := "Saudi Arabia"
    price_per_night := 100
    service_fee := 15
    tax_percent := 10
    rooms := 2
    max_adults := 2
    max_children := 1
    is_featured := false
    rating_avg := 0
    review_count := 0
    amenity_ids := []
    reviews := [] }

/-- Fixture stay with a given id and nightly price, otherwise `stay100`. -/
def priceStay (i : Nat) (p : ℚ) : Stay :=
  { stay100 with id := i, price_per_night := p }

/-- Fixture car with no reviews yet (`rating_avg=0, review_count=0`). -/
def car0 : Car :=
  { id := 1
    provider_id := 1
    car_type_id := 1
    city := "Jeddah"
    country := "Saudi Arabia"
    price_per_day := 50
    seats := 5
    transmission := "automatic"
    fuel_type := "petrol"
    is_featured := false
    rating_avg := 0
    review_count := 0
    reviews := [] }

/-- Fixture creation payload for a stay. -/
def stayIn : StayCreate :=
  ⟨"Palm Suites", "Riyadh", "Saudi Arabia", 100, 15, 10, 2, 2, 1, 1, []⟩

/-- Fixture creation payload for a car. -/
def carIn : CarCreate :=
  ⟨1, "Jeddah", "Saudi Arabia", 50, 5, "automatic", "petrol", []⟩

/-- Fixture users. -/
def adminUser : User := ⟨9, "admin@site", .admin⟩

/-- Fixture customer-role user with id 1. -/
def customerUser : User := ⟨1, "c@site", .customer⟩

/-- Fixture providers owned by user 1, in each status. -/
def pendingProvider : Provider := ⟨1, 1, .pending⟩

/-- Fixture rejected provider. -/
def rejectedProvider : Provider := ⟨1, 1, .rejected⟩

/-- Fixture approved provider. -/
def approvedProvider : Provider := ⟨1, 1, .approved⟩

/-! ## Theorems -/

/-- C9: the public stays search handler passes a `property_type_id`
keyword argument that the `search_stays` service function does not
declare, so by Python's calling convention every invocation of the
endpoint raises `TypeError` instead of returning a result page. -/
theorem C9_search_route_type_error :
    callRaisesTypeError search_stays_service_params search_stays_route_kwargs = true ∧
    ("property_type_id") ∈ search_stays_route_kwargs ∧
    ("property_type_id") ∉ search_stays_service_params := by
  refine ⟨by decide, by decide, by decide⟩

/-- C10: the car-review route's gate is `require_role("user")`, but every
user's role string is one of `customer`/`provider`/`admin`, so the gate
rejects every authenticated caller with `403 Forbidden` and no car review
can ever be created through the HTTP interface. -/
theorem C10_car_review_always_forbidden (u : User) (car : Car) (rating : Nat) :
    require_role_check ("user") u = .error ⟨403, "Forbidden"⟩ ∧
    add_car_review_route u car rating = .error ⟨403, "Forbidden"⟩ := by
  obtain ⟨i, e, r⟩ := u
  cases r <;> exact ⟨rfl, rfl⟩

/-- C7: the incremental car-review aggregation satisfies
`new_avg = (old_avg * old_count + new_rating) / (old_count + 1)` and
`new_count = old_count + 1`; starting from `avg=0, count=0`, adding the
ratings 4, 5, 3 in order yields `count=3` and `avg=4`. -/
theorem C7_incremental_aggregation (car : Car) (r : Nat) :
    (add_car_review car r).rating_avg =
      (car.rating_avg * (car.review_count : ℚ) + (r : ℚ)) / ((car.review_count : ℚ) + 1) ∧
    (add_car_review car r).review_count = car.review_count + 1 ∧
    (applyCarReviews car0 [4, 5, 3]).rating_avg = 4 ∧
    (applyCarReviews car0 [4, 5, 3]).review_count = 3 := by
  refine ⟨?_, rfl, ?_, rfl⟩
  · show (car.rating_avg * (((car.review_count + 1 : Nat) : ℚ) - 1) + (r : ℚ)) /
        ((car.review_count + 1 : Nat) : ℚ) = _
    push_cast
    ring_nf
  · norm_num [applyCarReviews, add_car_review, car0]

/-- C5: the duration-based breakdown fails with a 400 invalid-input error
when `nights = check_out - check_in <= 0` (never returning a
negative-nights result), and otherwise returns
`subtotal = unit_price * nights * rooms`, the service fee passed through,
`taxes = subtotal * tax_percent / 100` and
`total = subtotal + service_fee + taxes`, each rounded to 2 decimals. -/
theorem C5_price_breakdown (stay : Stay) (check_in check_out rooms : Int) :
    (check_out - check_in ≤ 0 →
      calculate_price_breakdown stay check_in check_out rooms =
        .error ⟨400, "Invalid date range"⟩) ∧
    (0 < check_out - check_in →
      calculate_price_breakdown stay check_in check_out rooms =
        .ok { subtotal :=
                round2 (stay.price_per_night * ((check_out - check_in : Int) : ℚ) * (rooms : ℚ))
              service_fee := round2 stay.service_fee
              taxes :=
                round2 (stay.price_per_night * ((check_out - check_in : Int) : ℚ) * (rooms : ℚ) *
                  (stay.tax_percent / 100))
              total :=
                round2 (stay.price_per_night * ((check_out - check_in : Int) : ℚ) * (rooms : ℚ) +
                  stay.service_fee +
                  stay.price_per_night * ((check_out - check_in : Int) : ℚ) * (rooms : ℚ) *
                    (stay.tax_percent / 100)) }) := by
  constructor
  · intro h
    simp [calculate_price_breakdown, h]
  · intro h
    rw [calculate_price_breakdown]
    rw [if_neg (by omega)]

/-- Closed witness for C5 at the spec's example:
`unit_price=100, tax_percent=10, service_fee=15, nights=3, rooms=2` gives
`subtotal=600, service_fee=15, taxes=60, total=675`, and a non-positive
range (`check_out <= check_in`) fails with the 400 error. -/
theorem C5_price_breakdown_witness :
    calculate_price_breakdown stay100 0 3 2 =
      .ok { subtotal := 600, service_fee := 15, taxes := 60, total := 675 } ∧
    calculate_price_breakdown stay100 5 3 2 = .error ⟨400, "Invalid date range"⟩ := by
  constructor
  · have h := (C5_price_breakdown stay100 0 3 2).2 (by norm_num)
    rw [h]
    norm_num [stay100, round2, roundHalfEven]
  · exact (C5_price_breakdown stay100 5 3 2).1 (by norm_num)

/-- C1 counterexample: a provider whose status is `pending` creates a car
listing through the provider route and the call succeeds — no Forbidden
error is raised anywhere on the car-creation path, refuting the claim
that every listing-creation request requires an approved provider. -/
theorem C1_counterexample :
    pendingProvider.status = ProviderStatus.pending ∧
    create_car_route customerUser carIn [pendingProvider] [] =
      .ok [carIn.toCar 0 pendingProvider.id] := by
  exact ⟨rfl, rfl⟩

/-- C1 (amended): stay creation succeeds exactly when the provider's
status is `approved` and fails with `403 "Provider not approved"`
otherwise; after the admin review operation approves the provider, the
same call succeeds. Car creation, by contrast, performs no provider
status check: with any provider row, the route succeeds. -/
theorem C1_stay_creation_gate (stay_in : StayCreate) (provider : Provider)
    (stays : List Stay) :
    ((∃ out, create_stay stay_in provider stays = .ok out) ↔
      provider.status = ProviderStatus.approved) ∧
    (provider.status ≠ ProviderStatus.approved →
      create_stay stay_in provider stays = .error ⟨403, "Provider not approved"⟩) ∧
    (∀ (u : User) (providers providers' : List Provider) (p' : Provider),
      review_provider provider.id true providers u = .ok (providers', p') →
      ∃ out, create_stay stay_in p' stays = .ok out) ∧
    (∀ (user : User) (car_in : CarCreate) (cars : List Car),
      user.role = UserRole.customer → provider.user_id = user.id →
      create_car_route user car_in [provider] cars =
        .ok (create_car car_in provider.id cars)) := by
  refine ⟨?_, ?_, ?_, ?_⟩
  · constructor
    · intro ⟨out, hout⟩
      by_cases h : provider.status = ProviderStatus.approved
      · exact h
      · rw [create_stay, if_pos h] at hout
        cases hout
    · intro h
      exact ⟨_, by rw [create_stay, if_neg (by simp [h])]⟩
  · intro h
    rw [create_stay, if_pos h]
  · intro u providers providers' p' h
    rw [review_provider] at h
    by_cases hu : u.role ≠ UserRole.admin
    · rw [if_pos hu] at h
      cases h
    · rw [if_neg hu] at h
      cases hfind : providers.find? (fun p => p.id == provider.id) with
      | none => rw [hfind] at h; cases h
      | some p =>
          rw [hfind] at h
          injection h with h2
          have hp' : p' = { p with status := ProviderStatus.approved } :=
            (Prod.mk.injEq _ _ _ _ |>.mp h2).2.symm
          subst hp'
          exact ⟨_, by rw [create_stay, if_neg (by simp)]⟩
  · intro user car_in cars hrole huid
    simp [create_car_route, require_role_check, hrole, UserRole.value,
      bind, Except.bind, get_provider_by_user, List.find?, huid]

/-- Closed witness for C1: the pending fixture provider is rejected with
the Forbidden error, the approved fixture provider succeeds. -/
theorem C1_stay_creation_gate_witness :
    create_stay stayIn pendingProvider [] = .error ⟨403, "Provider not approved"⟩ ∧
    (∃ out, create_stay stayIn approvedProvider [] = .ok out) := by
  exact ⟨(C1_stay_creation_gate stayIn pendingProvider []).2.1 (by decide),
    (C1_stay_creation_gate stayIn approvedProvider []).1.mpr rfl⟩

/-- C8 counterexample: the admin review operation applied to an
already-rejected provider with `approve=True` sets its status to
`approved`, so `rejected` is not terminal and `rejected → approved` is a
reachable transition, refuting the claim. -/
theorem C8_counterexample :
    rejectedProvider.status = ProviderStatus.rejected ∧
    review_provider 1 true [rejectedProvider] adminUser =
      .ok ([approvedProvider], approvedProvider) := by
  exact ⟨rfl, rfl⟩

/-- C8 (amended): the admin review operation requires the admin role and
unconditionally overwrites the provider's status with `approved` or
`rejected` according to the `approve` flag, regardless of the provider's
prior status — so every status (including `rejected`) can transition to
both `approved` and `rejected`. -/
theorem C8_review_provider_transitions (provider_id : Nat) (approve : Bool)
    (providers providers' : List Provider) (u : User) (p' : Provider)
    (h : review_provider provider_id approve providers u = .ok (providers', p')) :
    u.role = UserRole.admin ∧
    p'.status = (if approve then ProviderStatus.approved else ProviderStatus.rejected) := by
  rw [review_provider] at h
  by_cases hu : u.role ≠ UserRole.admin
  · rw [if_pos hu] at h
    cases h
  · rw [if_neg hu] at h
    refine ⟨not_not.mp hu, ?_⟩
    cases hfind : providers.find? (fun p => p.id == provider_id) with
    | none => rw [hfind] at h; cases h
    | some p =>
        rw [hfind] at h
        injection h with h2
        have hp' : p' = { p with status := if approve then .approved else .rejected } :=
          (Prod.mk.injEq _ _ _ _ |>.mp h2).2.symm
        subst hp'
        rfl

/-- Closed witness for C8 at the fixture: re-approving the rejected
provider is accepted and lands on `approved`. -/
theorem C8_review_provider_transitions_witness :
    adminUser.role = UserRole.admin ∧
    approvedProvider.status =
      (if true then ProviderStatus.approved else ProviderStatus.rejected) :=
  C8_review_provider_transitions 1 true [rejectedProvider] [approvedProvider]
    adminUser approvedProvider rfl

/-- Helper: a single stay review insertion re-establishes the (rounded)
aggregate fields from the full review list. -/
theorem add_review_recomputes (s : Stay) (r : Nat) :
    (add_review s r).reviews = s.reviews ++ [r] ∧
    (add_review s r).rating_avg = round1 (meanRatings (add_review s r).reviews) ∧
    (add_review s r).review_count = (add_review s r).reviews.length :=
  ⟨rfl, rfl, rfl⟩

/-- Helper: after any nonempty sequence of stay review insertions the
stored aggregate equals the rounded mean and the exact count. -/
theorem applyReviews_spec (ratings : List Nat) : ∀ (s : Stay), ratings ≠ [] →
    (applyReviews s ratings).reviews = s.reviews ++ ratings ∧
    (applyReviews s ratings).rating_avg =
      round1 (meanRatings (applyReviews s ratings).reviews) ∧
    (applyReviews s ratings).review_count = (applyReviews s ratings).reviews.length := by
  induction ratings with
  | nil => intro s h; exact absurd rfl h
  | cons r rs ih =>
    intro s _
    have hstep : applyReviews s (r :: rs) = applyReviews (add_review s r) rs := by
      simp [applyReviews]
    cases rs with
    | nil =>
        rw [hstep]
        simpa [applyReviews] using add_review_recomputes s r
    | cons r2 rs2 =>
        obtain ⟨e1, e2, e3⟩ := ih (add_review s r) (by simp)
        rw [hstep]
        refine ⟨?_, e2, e3⟩
        rw [e1]
        simp [add_review]

/-- Helper: one incremental car review insertion preserves the exact-mean
invariant (in the exact-rational model). -/
theorem add_car_review_consistent (c : Car) (r : Nat)
    (h1 : c.rating_avg = meanRatings c.reviews)
    (h2 : c.review_count = c.reviews.length) :
    (add_car_review c r).reviews = c.reviews ++ [r] ∧
    (add_car_review c r).rating_avg = meanRatings (add_car_review c r).reviews ∧
    (add_car_review c r).review_count = (add_car_review c r).reviews.length := by
  refine ⟨rfl, ?_, ?_⟩
  · show (c.rating_avg * (((c.review_count + 1 : Nat) : ℚ) - 1) + (r : ℚ)) /
        ((c.review_count + 1 : Nat) : ℚ) = meanRatings (c.reviews ++ [r])
    rw [h1, h2]
    by_cases hnil : c.reviews = []
    · rw [hnil]
      rw [meanRatings, meanRatings, if_pos rfl, if_neg (by simp)]
      norm_num
    · have hlen0 : c.reviews.length ≠ 0 := by
        simpa [Nat.pos_iff_ne_zero] using List.length_pos.mpr hnil
      have hq : ((c.reviews.length : ℚ)) ≠ 0 := by exact_mod_cast hlen0
      rw [meanRatings, meanRatings, if_neg hnil, if_neg (by simp)]
      simp only [List.sum_append, List.length_append, List.sum_cons,
        List.sum_nil, List.length_cons, List.length_nil]
      push_cast
      field_simp
  · show c.review_count + 1 = (c.reviews ++ [r]).length
    rw [h2]
    simp

/-- Helper: the exact-mean invariant is preserved by any sequence of
incremental car review insertions. -/
theorem applyCarReviews_consistent (ratings : List Nat) : ∀ (c : Car),
    c.rating_avg = meanRatings c.reviews →
    c.review_count = c.reviews.length →
    (applyCarReviews c ratings).reviews = c.reviews ++ ratings ∧
    (applyCarReviews c ratings).rating_avg =
      meanRatings (applyCarReviews c ratings).reviews ∧
    (applyCarReviews c ratings).review_count =
      (applyCarReviews c ratings).reviews.length := by
  induction ratings with
  | nil =>
    intro c h1 h2
    simpa [applyCarReviews] using ⟨h1, h2⟩
  | cons r rs ih =>
    intro c h1 h2
    have hstep : applyCarReviews c (r :: rs) = applyCarReviews (add_car_review c r) rs := by
      simp [applyCarReviews]
    obtain ⟨s1, s2, s3⟩ := add_car_review_consistent c r h1 h2
    obtain ⟨e1, e2, e3⟩ := ih (add_car_review c r) s2 s3
    rw [hstep]
    refine ⟨?_, e2, e3⟩
    rw [e1, s1]
    simp

/-- C6 counterexample: a stay receiving the ratings 4, 5, 5 stores
`rating_avg = 4.7` (the mean rounded to 1 decimal place by
`round(avg, 1)`), while the arithmetic mean of its reviews is `14/3`, so
the stored value is not the arithmetic mean. -/
theorem C6_counterexample :
    (applyReviews stay100 [4, 5, 5]).rating_avg = 47 / 10 ∧
    meanRatings (applyReviews stay100 [4, 5, 5]).reviews = 14 / 3 ∧
    (applyReviews stay100 [4, 5, 5]).rating_avg ≠
      meanRatings (applyReviews stay100 [4, 5, 5]).reviews := by
  have hmean : meanRatings [4, 5, 5] = 14 / 3 := by
    rw [meanRatings, if_neg (by simp)]
    norm_num
  have hrev : (applyReviews stay100 [4, 5, 5]).reviews = [4, 5, 5] := by
    simp [applyReviews, add_review, stay100]
  have havg : (applyReviews stay100 [4, 5, 5]).rating_avg =
      round1 (meanRatings [4, 5, 5]) := by
    simp [applyReviews, add_review, stay100]
  have hfloor : ⌊(14 : ℚ) / 3 * 10⌋ = 46 := by
    rw [Int.floor_eq_iff]
    norm_num
  have hround : round1 ((14 : ℚ) / 3) = 47 / 10 := by
    simp only [round1, roundHalfEven, hfloor]
    norm_num
  have havg2 : (applyReviews stay100 [4, 5, 5]).rating_avg = 47 / 10 := by
    rw [havg, hmean, hround]
  refine ⟨havg2, by rw [hrev, hmean], ?_⟩
  rw [havg2, hrev, hmean]
  norm_num

/-- C6 (amended): after any sequence of review additions, a stay's
`review_count` equals the number of its reviews and its `rating_avg`
equals the arithmetic mean of their ratings rounded to 1 decimal place
(not the exact mean); a car whose aggregate is consistent keeps
`rating_avg` equal to the exact arithmetic mean (in exact-rational
arithmetic) and `review_count` equal to the number of reviews. -/
theorem C6_rating_invariant :
    (∀ (stay : Stay) (ratings : List Nat), ratings ≠ [] →
      (applyReviews stay ratings).rating_avg =
        round1 (meanRatings (applyReviews stay ratings).reviews) ∧
      (applyReviews stay ratings).review_count =
        (applyReviews stay ratings).reviews.length) ∧
    (∀ (car : Car) (ratings : List Nat),
      car.rating_avg = meanRatings car.reviews →
      car.review_count = car.reviews.length →
      (applyCarReviews car ratings).rating_avg =
        meanRatings (applyCarReviews car ratings).reviews ∧
      (applyCarReviews car ratings).review_count =
        (applyCarReviews car ratings).reviews.length) := by
  constructor
  · intro stay ratings h
    exact ⟨(applyReviews_spec ratings stay h).2.1, (applyReviews_spec ratings stay h).2.2⟩
  · intro car ratings h1 h2
    exact ⟨(applyCarReviews_consistent ratings car h1 h2).2.1,
      (applyCarReviews_consistent ratings car h1 h2).2.2⟩

/-- Closed witness for C6 at the fixtures: one review on the fresh stay,
and the ratings 4, 5, 3 on the fresh car. -/
theorem C6_rating_invariant_witness :
    ((applyReviews stay100 [4]).rating_avg =
        round1 (meanRatings (applyReviews stay100 [4]).reviews) ∧
      (applyReviews stay100 [4]).review_count =
        (applyReviews stay100 [4]).reviews.length) ∧
    ((applyCarReviews car0 [4, 5, 3]).rating_avg =
        meanRatings (applyCarReviews car0 [4, 5, 3]).reviews ∧
      (applyCarReviews car0 [4, 5, 3]).review_count =
        (applyCarReviews car0 [4, 5, 3]).reviews.length) :=
  ⟨C6_rating_invariant.1 stay100 [4] (by simp),
   C6_rating_invariant.2 car0 [4, 5, 3] rfl rfl⟩

/-- Helper: membership in a Python slice implies membership in the list. -/
theorem mem_pySlice {α : Type} {a : α} {l : List α} {start stop : Int}
    (h : a ∈ pySlice l start stop) : a ∈ l := by
  rw [pySlice] at h
  exact List.mem_of_mem_drop (List.mem_of_mem_take h)

/-- Helper: membership in a page implies membership in the list. -/
theorem mem_paginate {α : Type} {a : α} {l : List α} {page page_size : Int}
    (h : a ∈ paginate page page_size l) : a ∈ l :=
  mem_pySlice h

/-- Helper: the sort stage never invents rows. -/
theorem mem_sortStays {s : Stay} {k : String} {l : List Stay}
    (h : s ∈ sortStays k l) : s ∈ l := by
  rw [sortStays] at h
  split_ifs at h
  · exact (List.perm_insertionSort _ l).subset h
  · exact (List.perm_insertionSort _ l).subset h
  · exact (List.perm_insertionSort _ l).subset h
  · exact (List.perm_insertionSort _ l).subset h
  · exact List.mem_of_mem_filter h
  · exact h

/-- C2 counterexample: with the amenity filter `[1]` supplied and one
stay carrying no amenities at all, the search still returns that stay —
the `amenities` parameter is accepted but never applied as a filter, so
the returned listing violates the spec's amenity-set filter. -/
theorem C2_counterexample :
    stay100.amenity_ids = [] ∧
    search_stays { SearchFilters.none with amenities := some [1] }
      ("price_asc") 1 20 [stay100] = [stay100] ∧
    spec_amenities_ok (some [1]) stay100 = false := by
  exact ⟨rfl, rfl, rfl⟩

/-- C2 (amended): every listing returned by the stay search satisfies the
conjunction of the supplied city/country (case-insensitive substring),
price range (inclusive), minimum-rating and capacity-minimum filters;
unspecified filters impose no constraint and an empty filter set passes
the full listing set through the filter stage — but the amenity-set
parameter imposes no constraint (the source never uses it). -/
theorem C2_filter_semantics (f : SearchFilters) (sort_by : String)
    (page page_size : Int) (stays : List Stay) (s : Stay) :
    (s ∈ filterStays f stays ↔ s ∈ stays ∧ matchesFilters f s = true) ∧
    filterStays SearchFilters.none stays = stays ∧
    (s ∈ search_stays f sort_by page page_size stays → matchesFilters f s = true) := by
  refine ⟨?_, ?_, ?_⟩
  · simp [filterStays, List.mem_filter]
  · exact List.filter_eq_self.mpr (fun a _ => rfl)
  · intro h
    have h1 : s ∈ filterStays f stays := mem_sortStays (mem_paginate h)
    rw [filterStays] at h1
    exact (List.mem_filter.mp h1).2

/-- Closed witness for C2: the fixture stay passes the empty filter set
and, being a member of the resulting search page, satisfies the filters. -/
theorem C2_filter_semantics_witness :
    filterStays SearchFilters.none [stay100] = [stay100] ∧
    matchesFilters SearchFilters.none stay100 = true := by
  have hmem : stay100 ∈ search_stays SearchFilters.none ("price_asc") 1 20 [stay100] := by
    have : search_stays SearchFilters.none ("price_asc") 1 20 [stay100] = [stay100] := rfl
    rw [this]
    exact List.mem_singleton_self stay100
  exact ⟨(C2_filter_semantics SearchFilters.none ("price_asc") 1 20 [stay100] stay100).2.1,
    (C2_filter_semantics SearchFilters.none ("price_asc") 1 20 [stay100] stay100).2.2 hmem⟩

/-- Helper: a Python slice with nonnegative bounds is an ordinary
drop-then-take slice. -/
theorem pySlice_nonneg {α : Type} (l : List α) (start stop : Int)
    (h1 : 0 ≤ start) (h2 : start ≤ stop) :
    pySlice l start stop = (l.drop start.toNat).take (stop - start).toNat := by
  rw [pySlice]
  rw [if_neg (by omega), if_neg (by omega)]
  by_cases hlt : start < (l.length : Int)
  · rw [min_eq_left (le_of_lt hlt)]
    apply List.take_eq_take.mpr
    have hd := List.length_drop start.toNat l
    omega
  · push_neg at hlt
    rw [min_eq_right (show (l.length : Int) ≤ stop by omega),
      min_eq_right (show (l.length : Int) ≤ start by omega)]
    have hR : l.drop start.toNat = [] := List.drop_eq_nil_of_le (by omega)
    have hz : ((l.length : Int) - (l.length : Int)).toNat = 0 := by omega
    rw [hz, hR, List.take_zero, List.take_nil]

/-- Helper: for a positive page number and nonnegative page size, the
pagination stage is the plain slice the spec describes. -/
theorem paginate_pos {α : Type} (l : List α) (page page_size : Int)
    (hp : 1 ≤ page) (hps : 0 ≤ page_size) :
    paginate page page_size l =
      (l.drop ((page - 1) * page_size).toNat).take page_size.toNat := by
  have h1 : 0 ≤ (page - 1) * page_size :=
    mul_nonneg (by omega) hps
  rw [paginate, pySlice_nonneg l _ _ h1 (le_add_of_nonneg_right hps)]
  rw [add_sub_cancel_left]

/-- Helper: a Python slice whose stop bound is 0 is empty. -/
theorem pySlice_stop_zero {α : Type} (l : List α) (start : Int) :
    pySlice l start 0 = [] := by
  have hn : (0 : Int) ≤ (l.length : Int) := Int.natCast_nonneg _
  simp only [pySlice]
  rw [if_neg (lt_irrefl 0), min_eq_left hn]
  by_cases h : start < 0
  · rw [if_pos h]
    have hz : ((0 : Int) - max 0 ((l.length : Int) + start)).toNat = 0 :=
      Int.toNat_of_nonpos (by omega)
    rw [hz, List.take_zero]
  · rw [if_neg h]
    have hz : ((0 : Int) - min start (l.length : Int)).toNat = 0 :=
      Int.toNat_of_nonpos (by omega)
    rw [hz, List.take_zero]

/-- Helper: page 0 always yields the empty slice. -/
theorem paginate_zero {α : Type} (l : List α) (page_size : Int) :
    paginate 0 page_size l = [] := by
  rw [paginate]
  have h2 : ((0 : Int) - 1) * page_size + page_size = 0 := by ring
  rw [h2]
  exact pySlice_stop_zero l _

/-- C4 counterexample: the claim says page numbers `<= 0` yield an empty
slice, but Python's negative-index slicing makes `page = -1` with 45 rows
and `page_size = 20` return rows 5..24 — a non-empty (20-row) page. -/
theorem C4_counterexample :
    paginate (-1) 20 (List.range 45) ≠ [] ∧
    (paginate (-1) 20 (List.range 45)).length = 20 := by
  exact ⟨by decide, by decide⟩

/-- C4 (amended): for page numbers `>= 1` and nonnegative page sizes the
search returns the slice `[(page-1)*page_size : (page-1)*page_size +
page_size]`, and out-of-range pages yield an empty slice without failing;
page 0 also yields an empty slice; but strictly negative page numbers go
through Python's negative-index slicing and can return a non-empty page. -/
theorem C4_pagination {α : Type} (l : List α) (page page_size : Int) :
    (1 ≤ page → 0 ≤ page_size →
      paginate page page_size l =
        (l.drop ((page - 1) * page_size).toNat).take page_size.toNat) ∧
    paginate 0 page_size l = [] ∧
    (1 ≤ page → 0 ≤ page_size → (l.length : Int) ≤ (page - 1) * page_size →
      paginate page page_size l = []) := by
  refine ⟨fun hp hps => paginate_pos l page page_size hp hps,
    paginate_zero l page_size, ?_⟩
  intro hp hps hlen
  rw [paginate_pos l page page_size hp hps]
  rw [List.drop_eq_nil_of_le (by omega), List.take_nil]

/-- Closed witness for C4 at the spec's example sizes: on 45 rows with
page size 20, page 1 has 20 rows, page 3 the remaining 5, page 4 none,
and page 0 none. -/
theorem C4_pagination_witness :
    (paginate 1 20 (List.range 45)).length = 20 ∧
    (paginate 3 20 (List.range 45)).length = 5 ∧
    paginate 4 20 (List.range 45) = [] ∧
    paginate 0 20 (List.range 45) = [] := by
  have h1 := (C4_pagination (List.range 45) 1 20).1 (by norm_num) (by norm_num)
  have h3 := (C4_pagination (List.range 45) 3 20).1 (by norm_num) (by norm_num)
  have h4 := (C4_pagination (List.range 45) 4 20).2.2 (by norm_num) (by norm_num)
    (by simp)
  have h0 := (C4_pagination (List.range 45) 0 20).2.1
  refine ⟨?_, ?_, h4, h0⟩
  · rw [h1]; decide
  · rw [h3]; decide

/-- Helper: stable sorting leaves every equal-key class in its original
order; formally, insertion sort does not change the sublist of elements
satisfying a predicate whose holders are mutually related. -/
theorem insertionSort_filter_stable (r : Stay → Stay → Prop) [DecidableRel r]
    (p : Stay → Bool) (hp : ∀ a b, p a = true → p b = true → r a b)
    (l : List Stay) :
    (List.insertionSort r l).filter p = l.filter p := by
  have hpair : (l.filter p).Pairwise r :=
    List.pairwise_of_forall_mem_list
      (fun a ha b hb => hp a b (List.of_mem_filter ha) (List.of_mem_filter hb))
  have hsub : List.Sublist (l.filter p) (List.insertionSort r l) :=
    List.sublist_insertionSort hpair (List.filter_sublist l)
  have hsub2 : List.Sublist ((l.filter p).filter p)
      ((List.insertionSort r l).filter p) := hsub.filter p
  rw [show (l.filter p).filter p = l.filter p by simp] at hsub2
  have hlen : ((List.insertionSort r l).filter p).length = (l.filter p).length :=
    ((List.perm_insertionSort r l).filter p).length_eq
  exact (hsub2.eq_of_length hlen.symm).symm

/-- Helper: the price-ascending branch of the sort stage. -/
theorem sortStays_price_asc (l : List Stay) :
    sortStays ("price_asc") l =
      List.insertionSort (keyRelAsc (fun s => s.price_per_night)) l := rfl

/-- Helper: the price-descending branch of the sort stage. -/
theorem sortStays_price_desc (l : List Stay) :
    sortStays ("price_desc") l =
      List.insertionSort (keyRelDesc (fun s => s.price_per_night)) l := rfl

/-- Helper: the rating-descending branch of the sort stage. -/
theorem sortStays_rating_desc (l : List Stay) :
    sortStays ("rating_desc") l =
      List.insertionSort (keyRelDesc (fun s => s.rating_avg)) l := rfl

/-- Helper: the popularity branch of the sort stage. -/
theorem sortStays_popularity (l : List Stay) :
    sortStays ("popularity") l =
      List.insertionSort (keyRelDesc (fun s => (s.review_count : ℚ))) l := rfl

/-- C3 counterexample: an unrecognized sort key does not sort by price
ascending — the source's `if/elif` chain has no `else`, so the list is
returned in its underlying order, here with prices 5 then 3. -/
theorem C3_counterexample :
    sortStays ("foo") [priceStay 1 5, priceStay 2 3] =
      [priceStay 1 5, priceStay 2 3] ∧
    ¬ List.Pairwise (fun a b => a.price_per_night ≤ b.price_per_night)
        (sortStays ("foo") [priceStay 1 5, priceStay 2 3]) := by
  refine ⟨rfl, ?_⟩
  intro h
  rw [show sortStays ("foo") [priceStay 1 5, priceStay 2 3] =
      [priceStay 1 5, priceStay 2 3] from rfl] at h
  have h5 : (priceStay 1 5).price_per_night ≤ (priceStay 2 3).price_per_night :=
    (List.pairwise_cons.mp h).1 _ (List.mem_singleton_self _)
  norm_num [priceStay, stay100] at h5

/-- C3 (amended): `price_asc` yields non-decreasing prices, `price_desc`
non-increasing prices, `rating_desc` non-increasing ratings,
`popularity` non-increasing review counts (each a permutation of the
input and stable on ties, i.e. every equal-key class keeps the store's
retrieval order); `featured` keeps exactly the `is_featured` rows in
underlying order. The `sort_by` parameter defaults to `price_asc`, but an
explicitly supplied unrecognized key matches no branch and leaves the
list in its underlying order instead of sorting by price. -/
theorem C3_sort_semantics (stays : List Stay) :
    List.Pairwise (fun a b => a.price_per_night ≤ b.price_per_night)
      (sortStays ("price_asc") stays) ∧
    List.Pairwise (fun a b => b.price_per_night ≤ a.price_per_night)
      (sortStays ("price_desc") stays) ∧
    List.Pairwise (fun a b => b.rating_avg ≤ a.rating_avg)
      (sortStays ("rating_desc") stays) ∧
    List.Pairwise (fun a b => b.review_count ≤ a.review_count)
      (sortStays ("popularity") stays) ∧
    sortStays ("featured") stays = stays.filter (fun s => s.is_featured) ∧
    List.Perm (sortStays ("price_asc") stays) stays ∧
    List.Perm (sortStays ("price_desc") stays) stays ∧
    List.Perm (sortStays ("rating_desc") stays) stays ∧
    List.Perm (sortStays ("popularity") stays) stays ∧
    (∀ v : ℚ, (sortStays ("price_asc") stays).filter (fun s => s.price_per_night == v) =
      stays.filter (fun s => s.price_per_night == v)) ∧
    (∀ v : ℚ, (sortStays ("price_desc") stays).filter (fun s => s.price_per_night == v) =
      stays.filter (fun s => s.price_per_night == v)) ∧
    (∀ v : ℚ, (sortStays ("rating_desc") stays).filter (fun s => s.rating_avg == v) =
      stays.filter (fun s => s.rating_avg == v)) ∧
    (∀ v : Nat, (sortStays ("popularity") stays).filter (fun s => s.review_count == v) =
      stays.filter (fun s => s.review_count == v)) ∧
    (∀ k : String,
      k ∉ (["price_asc", "price_desc", "rating_desc", "popularity", "featured"] : List String) →
      sortStays k stays = stays) := by
  refine ⟨?_, ?_, ?_, ?_, rfl, ?_, ?_, ?_, ?_, ?_, ?_, ?_, ?_, ?_⟩
  · rw [sortStays_price_asc]
    have h := List.sorted_insertionSort (keyRelAsc (fun s => s.price_per_night)) stays
    exact h
  · rw [sortStays_price_desc]
    have h := List.sorted_insertionSort (keyRelDesc (fun s => s.price_per_night)) stays
    exact h
  · rw [sortStays_rating_desc]
    have h := List.sorted_insertionSort (keyRelDesc (fun s => s.rating_avg)) stays
    exact h
  · rw [sortStays_popularity]
    have h := List.sorted_insertionSort (keyRelDesc (fun s => (s.review_count : ℚ))) stays
    exact List.Pairwise.imp (fun hab => Nat.cast_le.mp hab) h
  · rw [sortStays_price_asc]
    exact List.perm_insertionSort _ stays
  · rw [sortStays_price_desc]
    exact List.perm_insertionSort _ stays
  · rw [sortStays_rating_desc]
    exact List.perm_insertionSort _ stays
  · rw [sortStays_popularity]
    exact List.perm_insertionSort _ stays
  · intro v
    rw [sortStays_price_asc]
    refine insertionSort_filter_stable _ _ (fun a b ha hb => ?_) stays
    have ha' : a.price_per_night = v := by simpa using ha
    have hb' : b.price_per_night = v := by simpa using hb
    show a.price_per_night ≤ b.price_per_night
    rw [ha', hb']
  · intro v
    rw [sortStays_price_desc]
    refine insertionSort_filter_stable _ _ (fun a b ha hb => ?_) stays
    have ha' : a.price_per_night = v := by simpa using ha
    have hb' : b.price_per_night = v := by simpa using hb
    show b.price_per_night ≤ a.price_per_night
    rw [ha', hb']
  · intro v
    rw [sortStays_rating_desc]
    refine insertionSort_filter_stable _ _ (fun a b ha hb => ?_) stays
    have ha' : a.rating_avg = v := by simpa using ha
    have hb' : b.rating_avg = v := by simpa using hb
    show b.rating_avg ≤ a.rating_avg
    rw [ha', hb']
  · intro v
    rw [sortStays_popularity]
    refine insertionSort_filter_stable _ _ (fun a b ha hb => ?_) stays
    have ha' : a.review_count = v := by simpa using ha
    have hb' : b.review_count = v := by simpa using hb
    show ((b.review_count : ℚ)) ≤ ((a.review_count : ℚ))
    rw [ha', hb']
  · intro k hk
    simp only [List.mem_cons, List.not_mem_nil, or_false, not_or] at hk
    obtain ⟨h1, h2, h3, h4, h5⟩ := hk
    simp only [sortStays]
    rw [if_neg h1, if_neg h2, if_neg h3, if_neg h4, if_neg h5]

/-- Closed witness for C3 at a two-stay fixture with prices 5 and 3:
`price_asc` produces a non-decreasing page and the unrecognized key
`zzz` leaves the list untouched. -/
theorem C3_sort_semantics_witness :
    List.Pairwise (fun a b => a.price_per_night ≤ b.price_per_night)
      (sortStays ("price_asc") [priceStay 1 5, priceStay 2 3]) ∧
    sortStays ("zzz") [priceStay 1 5, priceStay 2 3] =
      [priceStay 1 5, priceStay 2 3] := by
  refine ⟨(C3_sort_semantics [priceStay 1 5, priceStay 2 3]).1, ?_⟩
  exact (C3_sort_semantics [priceStay 1 5, priceStay 2 3]).2.2.2.2.2.2.2.2.2.2.2.2.2
    ("zzz") (by decide)

end Booking
